import Mathlib

/-!
Verification development for the APARAJITHA learning-management backend.

The embedding models the in-memory mock database (`src/server/db.ts`), the
storage layer (`DatabaseStorage`, appended to `src/server/routes.ts`) and the
Express route handlers of `src/server/routes.ts` that the claims concern.

Modelling conventions, stated once here:

* The condition objects consumed by `parseCondition` are built by the
  `drizzle-orm` helpers `eq`, `and`, `inArray`, whose code is not part of this
  repository.  Per the specification (sections 6 and 9) these are explicit
  field predicates — a tagged union of field-equality, conjunction and in-set
  predicates over a field name and value — and they are modelled here in the
  object shapes `parseCondition` (src/server/db.ts, lines 37-111) consumes:
  field equality as a `column`/`value` object (its "Simple field equality
  check" branch) and conjunction/disjunction as a `type`/`conditions` object
  (its composite branch).  An in-set predicate matches none of the branches
  `parseCondition` sniffs, so it evaluates to the function's default `true`.
* `generateId()` (a random base36 string of 9 characters) is modelled as a
  deterministic fresh-identifier supply carried in the store; `new Date()` is
  modelled as a clock string carried in the store.  Neither choice affects any
  claim, which never depends on the concrete value of a generated identifier
  or timestamp.
* JavaScript records are modelled as typed structures whose JSON field view
  (camelCase keys, exactly the keys the TypeScript call sites store) is given
  by an explicit lookup function; an absent field is `none` (undefined).
-/

namespace LMS

/-- A JSON-ish primitive value as stored in mock records and carried in
conditions.  `undefined` is represented by `Option.none` at lookup sites. -/
inductive Value where
  | vStr (s : String)
  | vInt (n : Int)
  | vBool (b : Bool)
  deriving Repr, DecidableEq

/-- Condition objects fed to `parseCondition`.  See the modelling note in the
file header: these are the spec's tagged field predicates in the shapes the
mock's condition parser consumes. -/
inductive Cond where
  | eqCol (column : String) (value : Value)
  | andCond (conditions : List Cond)
  | orCond (conditions : List Cond)
  | inArrayCol (column : String) (values : List Value)
  deriving Repr

mutual

/-- `parseCondition` from src/server/db.ts (lines 37-111), on the condition
shapes above.  A field-equality object takes the "Simple field equality check"
branch (`record[condition.column] === condition.value`, with a falsy — empty —
column name skipping the branch and falling through to the default `true`).
A composite object takes the `condition.type` switch: `and` maps to
`every`, `or` maps to `some`, and an `??`-defaulted missing list yields
`true`.  An in-set object matches no branch and yields the default `true`. -/
def parseCondition (c : Cond) (record : String → Option Value) : Bool :=
  match c with
  | Cond.eqCol column value =>
      if column = "" then true
      else record column == some value
  | Cond.andCond conditions => parseCondListAll conditions record
  | Cond.orCond conditions => parseCondListAny conditions record
  | Cond.inArrayCol _ _ => true

/-- `conditions?.every((cond) => parseCondition(cond, record, session)) ?? true` -/
def parseCondListAll (cs : List Cond) (record : String → Option Value) : Bool :=
  match cs with
  | [] => true
  | c :: rest => parseCondition c record && parseCondListAll rest record

/-- `conditions?.some((cond) => parseCondition(cond, record, session)) ?? true` -/
def parseCondListAny (cs : List Cond) (record : String → Option Value) : Bool :=
  match cs with
  | [] => false
  | c :: rest => parseCondition c record || parseCondListAny rest record

end

/-! ### Entity records

One structure per mock table, with exactly the fields the TypeScript code
stores (`db.insert` adds `id`, `createdAt` and the table-conditional
timestamp to the caller-supplied data). -/

structure User where
  id : String
  name : String
  email : String
  password : String
  role : String
  createdAt : String
  deriving Repr, DecidableEq

structure Course where
  id : String
  title : String
  description : String
  duration : String
  teacherId : String
  createdAt : String
  deriving Repr, DecidableEq

structure Enrollment where
  id : String
  studentId : String
  courseId : String
  enrolledAt : String
  createdAt : String
  deriving Repr, DecidableEq

structure Assignment where
  id : String
  courseId : String
  title : String
  instructions : String
  dueDate : String
  createdAt : String
  deriving Repr, DecidableEq

structure Submission where
  id : String
  assignmentId : String
  studentId : String
  content : String
  fileUrl : Option String
  submittedAt : String
  createdAt : String
  deriving Repr, DecidableEq

structure Grade where
  id : String
  submissionId : String
  grade : Int
  feedback : Option String
  gradedAt : String
  createdAt : String
  deriving Repr, DecidableEq

structure Discussion where
  id : String
  courseId : String
  userId : String
  content : String
  parentId : Option String
  createdAt : String
  deriving Repr, DecidableEq

structure Material where
  id : String
  courseId : String
  title : String
  fileUrl : String
  fileType : String
  uploadedAt : String
  createdAt : String
  deriving Repr, DecidableEq

structure Notification where
  id : String
  userId : String
  ntype : String
  content : String
  isRead : Bool
  createdAt : String
  deriving Repr, DecidableEq

/-! ### JSON field views (camelCase keys, as the TypeScript objects carry). -/

def User.getField (u : User) : String → Option Value := fun f =>
  if f = "id" then some (Value.vStr u.id)
  else if f = "name" then some (Value.vStr u.name)
  else if f = "email" then some (Value.vStr u.email)
  else if f = "password" then some (Value.vStr u.password)
  else if f = "role" then some (Value.vStr u.role)
  else if f = "createdAt" then some (Value.vStr u.createdAt)
  else none

def Course.getField (c : Course) : String → Option Value := fun f =>
  if f = "id" then some (Value.vStr c.id)
  else if f = "title" then some (Value.vStr c.title)
  else if f = "description" then some (Value.vStr c.description)
  else if f = "duration" then some (Value.vStr c.duration)
  else if f = "teacherId" then some (Value.vStr c.teacherId)
  else if f = "createdAt" then some (Value.vStr c.createdAt)
  else none

def Enrollment.getField (e : Enrollment) : String → Option Value := fun f =>
  if f = "id" then some (Value.vStr e.id)
  else if f = "studentId" then some (Value.vStr e.studentId)
  else if f = "courseId" then some (Value.vStr e.courseId)
  else if f = "enrolledAt" then some (Value.vStr e.enrolledAt)
  else if f = "createdAt" then some (Value.vStr e.createdAt)
  else none

def Assignment.getField (a : Assignment) : String → Option Value := fun f =>
  if f = "id" then some (Value.vStr a.id)
  else if f = "courseId" then some (Value.vStr a.courseId)
  else if f = "title" then some (Value.vStr a.title)
  else if f = "instructions" then some (Value.vStr a.instructions)
  else if f = "dueDate" then some (Value.vStr a.dueDate)
  else if f = "createdAt" then some (Value.vStr a.createdAt)
  else none

def Submission.getField (s : Submission) : String → Option Value := fun f =>
  if f = "id" then some (Value.vStr s.id)
  else if f = "assignmentId" then some (Value.vStr s.assignmentId)
  else if f = "studentId" then some (Value.vStr s.studentId)
  else if f = "content" then some (Value.vStr s.content)
  else if f = "fileUrl" then s.fileUrl.map Value.vStr
  else if f = "submittedAt" then some (Value.vStr s.submittedAt)
  else if f = "createdAt" then some (Value.vStr s.createdAt)
  else none

def Grade.getField (g : Grade) : String → Option Value := fun f =>
  if f = "id" then some (Value.vStr g.id)
  else if f = "submissionId" then some (Value.vStr g.submissionId)
  else if f = "grade" then some (Value.vInt g.grade)
  else if f = "feedback" then g.feedback.map Value.vStr
  else if f = "gradedAt" then some (Value.vStr g.gradedAt)
  else if f = "createdAt" then some (Value.vStr g.createdAt)
  else none

def Discussion.getField (d : Discussion) : String → Option Value := fun f =>
  if f = "id" then some (Value.vStr d.id)
  else if f = "courseId" then some (Value.vStr d.courseId)
  else if f = "userId" then some (Value.vStr d.userId)
  else if f = "content" then some (Value.vStr d.content)
  else if f = "parentId" then d.parentId.map Value.vStr
  else if f = "createdAt" then some (Value.vStr d.createdAt)
  else none

def Material.getField (m : Material) : String → Option Value := fun f =>
  if f = "id" then some (Value.vStr m.id)
  else if f = "courseId" then some (Value.vStr m.courseId)
  else if f = "title" then some (Value.vStr m.title)
  else if f = "fileUrl" then some (Value.vStr m.fileUrl)
  else if f = "fileType" then some (Value.vStr m.fileType)
  else if f = "uploadedAt" then some (Value.vStr m.uploadedAt)
  else if f = "createdAt" then some (Value.vStr m.createdAt)
  else none

def Notification.getField (n : Notification) : String → Option Value := fun f =>
  if f = "id" then some (Value.vStr n.id)
  else if f = "userId" then some (Value.vStr n.userId)
  else if f = "type" then some (Value.vStr n.ntype)
  else if f = "content" then some (Value.vStr n.content)
  else if f = "isRead" then some (Value.vBool n.isRead)
  else if f = "createdAt" then some (Value.vStr n.createdAt)
  else none

/-- The `mockData` tables of src/server/db.ts, plus the fresh-identifier
supply modelling `generateId()` and the clock string modelling `new Date()`
(see the file header). -/
structure Store where
  users : List User
  courses : List Course
  enrollments : List Enrollment
  assignments : List Assignment
  submissions : List Submission
  grades : List Grade
  discussions : List Discussion
  materials : List Material
  notifications : List Notification
  nextId : Nat
  now : String
  deriving Repr, DecidableEq

/-- Fresh identifier drawn from the supply (models `generateId()`). -/
def Store.freshId (st : Store) : String := "gid" ++ toString st.nextId

/-! ### MockQuery semantics used at the route call sites

`MockQuery.where` filters the (deep-copied) table by `parseCondition`;
`MockQuery.limit(count)` slices at execution time under a JavaScript
truthiness guard (`if (this.limitCount)`), so `limit(0)` is a no-op. -/

def applyWhere (c : Cond) (get : α → String → Option Value) (rows : List α) : List α :=
  rows.filter (fun r => parseCondition c (get r))

def applyLimit (n : Nat) (rows : List α) : List α :=
  if n = 0 then rows else rows.take n

end LMS

namespace LMS

/-! ### `db.insert` (src/server/db.ts, lines 328-358)

`values(data).returning()` unconditionally pushes
`{...data, id: generateId(), createdAt: data.createdAt || now, ...}` plus the
table-conditional timestamp onto the table — there is no uniqueness
constraint of any kind.  One typed wrapper per inserting call site. -/

def insertEnrollment (st : Store) (studentId courseId : String) : Enrollment × Store :=
  let r : Enrollment :=
    { id := st.freshId, studentId := studentId, courseId := courseId,
      enrolledAt := st.now, createdAt := st.now }
  (r, { st with enrollments := st.enrollments ++ [r], nextId := st.nextId + 1 })

def insertAssignment (st : Store) (courseId title instructions dueDate : String) :
    Assignment × Store :=
  let r : Assignment :=
    { id := st.freshId, courseId := courseId, title := title,
      instructions := instructions, dueDate := dueDate, createdAt := st.now }
  (r, { st with assignments := st.assignments ++ [r], nextId := st.nextId + 1 })

def insertSubmission (st : Store) (assignmentId studentId content : String)
    (fileUrl : Option String) : Submission × Store :=
  let r : Submission :=
    { id := st.freshId, assignmentId := assignmentId, studentId := studentId,
      content := content, fileUrl := fileUrl, submittedAt := st.now, createdAt := st.now }
  (r, { st with submissions := st.submissions ++ [r], nextId := st.nextId + 1 })

def insertGrade (st : Store) (submissionId : String) (grade : Int)
    (feedback : Option String) : Grade × Store :=
  let r : Grade :=
    { id := st.freshId, submissionId := submissionId, grade := grade,
      feedback := feedback, gradedAt := st.now, createdAt := st.now }
  (r, { st with grades := st.grades ++ [r], nextId := st.nextId + 1 })

def insertMaterial (st : Store) (courseId title fileUrl fileType : String) :
    Material × Store :=
  let r : Material :=
    { id := st.freshId, courseId := courseId, title := title, fileUrl := fileUrl,
      fileType := fileType, uploadedAt := st.now, createdAt := st.now }
  (r, { st with materials := st.materials ++ [r], nextId := st.nextId + 1 })

/-- `storage.createNotification` (src: `db.insert(notifications).values(...)`);
callers pass `isRead: false` explicitly. -/
def insertNotification (st : Store) (userId ntype content : String) (isRead : Bool) :
    Notification × Store :=
  let r : Notification :=
    { id := st.freshId, userId := userId, ntype := ntype, content := content,
      isRead := isRead, createdAt := st.now }
  (r, { st with notifications := st.notifications ++ [r], nextId := st.nextId + 1 })

/-! ### `DatabaseStorage` getters

Each is `[row] = await db.select().from(t).where(eq(t.id, id)); return row || undefined`:
a `where` filter over the table followed by first-element destructuring. -/

def getUser (st : Store) (id : String) : Option User :=
  (applyWhere (Cond.eqCol "id" (Value.vStr id)) User.getField st.users).head?

def getCourse (st : Store) (id : String) : Option Course :=
  (applyWhere (Cond.eqCol "id" (Value.vStr id)) Course.getField st.courses).head?

def getAssignment (st : Store) (id : String) : Option Assignment :=
  (applyWhere (Cond.eqCol "id" (Value.vStr id)) Assignment.getField st.assignments).head?

def getSubmission (st : Store) (id : String) : Option Submission :=
  (applyWhere (Cond.eqCol "id" (Value.vStr id)) Submission.getField st.submissions).head?

/-- `storage.getEnrollmentsByCourse(courseId)`. -/
def getEnrollmentsByCourse (st : Store) (courseId : String) : List Enrollment :=
  applyWhere (Cond.eqCol "courseId" (Value.vStr courseId)) Enrollment.getField st.enrollments

/-- Comparator of `orderBy(desc(notifications.createdAt))`, modelled as a
stable sort by `createdAt` descending (the mock resolves the ordering field
through `getNestedValue`; a permutation-only reordering is all any claim
depends on). -/
def sortByCreatedAtDesc (l : List Notification) : List Notification :=
  l.mergeSort (fun a b => b.createdAt ≤ a.createdAt)

/-- `storage.getNotificationsByUser(userId)`: filter by `eq(notifications.userId, userId)`
then order by `createdAt` descending. -/
def getNotificationsByUser (st : Store) (userId : String) : List Notification :=
  sortByCreatedAtDesc
    (applyWhere (Cond.eqCol "userId" (Value.vStr userId)) Notification.getField st.notifications)

/-- `storage.markNotificationAsRead(id)`:
`db.update(notifications).set({ isRead: true }).where(eq(notifications.id, id))` —
`db.update` walks the table and `Object.assign`s the patch onto every record
satisfying `parseCondition` (src/server/db.ts, lines 360-380). -/
def markNotificationAsRead (st : Store) (id : String) : Store :=
  { st with
    notifications := st.notifications.map (fun m =>
      if parseCondition (Cond.eqCol "id" (Value.vStr id)) m.getField then
        { m with isRead := true }
      else m) }

/-! ### WebSocket registry and best-effort push (src/server/routes.ts, lines 19, 62-67) -/

structure WSConn where
  readyState : Nat
  deriving Repr, DecidableEq

/-- `WebSocket.OPEN` -/
def wsOPEN : Nat := 1

structure PushMsg where
  target : String
  msgType : String
  data : Notification
  deriving Repr, DecidableEq

/-- The `clients` map keyed by user id. -/
abbrev Clients := List (String × WSConn)

def clientsGet (cl : Clients) (userId : String) : Option WSConn :=
  (cl.find? (fun p => p.1 == userId)).map (fun p => p.2)

/-- `broadcastNotification(userId, notification)`: send
`{ type: "notification", data: notification }` iff a client is registered for
the user and its `readyState` is `OPEN`; otherwise do nothing.  It never
touches the store. -/
def broadcastNotification (cl : Clients) (userId : String) (n : Notification) :
    List PushMsg :=
  match clientsGet cl userId with
  | some client =>
      if client.readyState == wsOPEN then
        [{ target := userId, msgType := "notification", data := n }]
      else []
  | none => []

/-- The `notify` pattern every domain event uses:
`storage.createNotification(...)` followed by `broadcastNotification(...)`. -/
def notifyUser (st : Store) (cl : Clients) (userId ntype content : String) :
    Notification × Store × List PushMsg :=
  let created := insertNotification st userId ntype content false
  (created.1, created.2, broadcastNotification cl userId created.1)

/-! ### Request validation (zod schemas, src/server/routes.ts lines 27-35)

`z.string().uuid()` is external library code; modelled as the standard
8-4-4-4-12 hex shape. -/

def isHexChar (c : Char) : Bool :=
  c.isDigit || (Char.ofNat 97 ≤ c && c ≤ Char.ofNat 102) ||
    (Char.ofNat 65 ≤ c && c ≤ Char.ofNat 70)

def uuidCharsOk : Nat → List Char → Bool
  | _, [] => true
  | i, c :: rest =>
      (if i == 8 || i == 13 || i == 18 || i == 23 then c == Char.ofNat 45
       else isHexChar c) && uuidCharsOk (i + 1) rest

/-- The 8-4-4-4-12 hex shape with dashes at positions 8, 13, 18 and 23. -/
def isUuid (s : String) : Bool :=
  s.toList.length == 36 && uuidCharsOk 0 s.toList

/-- `gradeSchema`: `submissionId` a uuid, `grade` an integer in `[0, 100]`
(`z.number().int().min(0).max(100)`), optional feedback.  The raw JSON grade
value is modelled as a rational number. -/
def gradeValueOk (g : ℚ) : Bool :=
  g.den == 1 && decide (0 ≤ g) && decide (g ≤ 100)

end LMS

namespace LMS

/-! ### Sessions, responses and route handlers (src/server/routes.ts)

A handler is a pure function of the store, the (optional) session and the
request data.  `Resp.json v` is `res.json(v)` (HTTP 200); `Resp.err s m` is
`res.status(s).json({ message: m })`.  A thrown `TypeError` (a property read
on `undefined`) reaches the catch-all and is surfaced as a 500 whose message
is modelled by the fixed string "TypeError".  Handlers that write return the
updated store; the best-effort WebSocket push performed after a write never
touches the store and is modelled separately (`broadcastNotification`). -/

structure Session where
  userId : String
  userRole : String
  deriving Repr, DecidableEq

inductive Resp (α : Type) where
  | json (v : α)
  | err (status : Nat) (message : String)
  deriving Repr, DecidableEq

/-- The enrollment-existence query shared by the Course-scoped guards:
`db.select().from(enrollments).where(and(eq(enrollments.courseId, courseId),
eq(enrollments.studentId, userId))).limit(1)`. -/
def enrollmentCheckQuery (st : Store) (courseId userId : String) : List Enrollment :=
  applyLimit 1
    (applyWhere
      (Cond.andCond
        [Cond.eqCol "courseId" (Value.vStr courseId),
         Cond.eqCol "studentId" (Value.vStr userId)])
      Enrollment.getField st.enrollments)

structure CourseDetailPayload where
  course : Course
  teacherName : String
  deriving Repr, DecidableEq

/-- `GET /api/courses/:id` (lines 174-202). -/
def getCourseRoute (st : Store) (sess : Option Session) (cid : String) :
    Resp CourseDetailPayload :=
  match sess with
  | none => Resp.err 401 "Unauthorized"
  | some s =>
      match getCourse st cid with
      | none => Resp.err 404 "Course not found"
      | some course =>
          let isTeacher := s.userRole == "teacher" && course.teacherId == s.userId
          let isEnrolled :=
            s.userRole == "student" && decide (0 < (enrollmentCheckQuery st cid s.userId).length)
          if !isTeacher && !isEnrolled then
            Resp.err 403 "You don\x27t have access to this course"
          else
            let teacherName :=
              match getUser st course.teacherId with
              | some t => if t.name = "" then "Unknown" else t.name
              | none => "Unknown"
            Resp.json { course := course, teacherName := teacherName }

structure EnrolledStudentInfo where
  enrollment : Enrollment
  studentName : String
  studentEmail : String
  deriving Repr, DecidableEq

/-- `GET /api/courses/:id/enrollments` (lines 339-366): teacher only; a
missing course and a non-owned course are folded into one Forbidden check
(`if (!course || course.teacherId !== req.session.userId)`). -/
def getCourseEnrollmentsRoute (st : Store) (sess : Option Session) (cid : String) :
    Resp (List EnrolledStudentInfo) :=
  match sess with
  | none => Resp.err 401 "Unauthorized"
  | some s =>
      if s.userRole != "teacher" then Resp.err 403 "Forbidden"
      else
        let ok := match getCourse st cid with
          | none => false
          | some course => course.teacherId == s.userId
        if !ok then
          Resp.err 403 "You don\x27t have permission to view these enrollments"
        else
          let rows := getEnrollmentsByCourse st cid
          match rows.mapM (fun e =>
              (getUser st e.studentId).map (fun u =>
                ({ enrollment := e, studentName := u.name, studentEmail := u.email }
                  : EnrolledStudentInfo))) with
          | none => Resp.err 500 "TypeError"
          | some infos => Resp.json infos

structure AssignmentReq where
  courseId : String
  title : String
  instructions : String
  dueDate : String
  deriving Repr, DecidableEq

/-- `POST /api/assignments` (lines 412-438): teacher only; missing course and
non-owned course folded into one Forbidden check; on success inserts the
assignment and one notification per enrollment of the course. -/
def postAssignmentsRoute (st : Store) (sess : Option Session) (body : AssignmentReq) :
    Resp Assignment × Store :=
  match sess with
  | none => (Resp.err 401 "Unauthorized", st)
  | some s =>
      if s.userRole != "teacher" then (Resp.err 403 "Forbidden", st)
      else
        match getCourse st body.courseId with
        | none =>
            (Resp.err 403 "You don\x27t have permission to create assignments for this course",
             st)
        | some course =>
            if course.teacherId != s.userId then
              (Resp.err 403 "You don\x27t have permission to create assignments for this course",
               st)
            else
              let ins := insertAssignment st body.courseId body.title body.instructions
                body.dueDate
              let enrolls := getEnrollmentsByCourse ins.2 body.courseId
              let finalSt := enrolls.foldl
                (fun acc e =>
                  (insertNotification acc e.studentId "Assignment"
                    ("New assignment in " ++ course.title ++ ": " ++ ins.1.title) false).2)
                ins.2
              (Resp.json ins.1, finalSt)

structure MaterialReq where
  courseId : String
  title : String
  fileUrl : String
  fileType : String
  deriving Repr, DecidableEq

/-- `POST /api/materials` (lines 1033-1046): teacher only; missing course and
non-owned course folded into one Forbidden check. -/
def postMaterialsRoute (st : Store) (sess : Option Session) (body : MaterialReq) :
    Resp Material × Store :=
  match sess with
  | none => (Resp.err 401 "Unauthorized", st)
  | some s =>
      if s.userRole != "teacher" then (Resp.err 403 "Forbidden", st)
      else
        match getCourse st body.courseId with
        | none =>
            (Resp.err 403 "You don\x27t have permission to add materials to this course", st)
        | some course =>
            if course.teacherId != s.userId then
              (Resp.err 403 "You don\x27t have permission to add materials to this course", st)
            else
              let ins := insertMaterial st body.courseId body.title body.fileUrl body.fileType
              (Resp.json ins.1, ins.2)

structure EnrichedSubmission where
  submission : Submission
  studentName : String
  studentEmail : String
  grades : List Grade
  deriving Repr, DecidableEq

structure AssignmentDetailPayload where
  assignment : Assignment
  courseTitle : String
  submissions : List EnrichedSubmission
  deriving Repr, DecidableEq

/-- `GET /api/assignments/:id` (lines 440-518): any authenticated user; guard
is teacher-ownership or student-enrollment on the assignment's course; an
enrolled student's submission query is additionally filtered by their own
`studentId`, the teacher-owner's is not. -/
def getAssignmentRoute (st : Store) (sess : Option Session) (aid : String) :
    Resp AssignmentDetailPayload :=
  match sess with
  | none => Resp.err 401 "Unauthorized"
  | some s =>
      match getAssignment st aid with
      | none => Resp.err 404 "Assignment not found"
      | some assignment =>
          match getCourse st assignment.courseId with
          | none => Resp.err 500 "TypeError"
          | some course =>
              let isTeacher := s.userRole == "teacher" && course.teacherId == s.userId
              let isEnrolled :=
                s.userRole == "student" &&
                  decide (0 < (enrollmentCheckQuery st assignment.courseId s.userId).length)
              if !isTeacher && !isEnrolled then
                Resp.err 403 "You don\x27t have access to this assignment"
              else
                let subs :=
                  if isEnrolled && !isTeacher then
                    applyWhere
                      (Cond.andCond
                        [Cond.eqCol "assignmentId" (Value.vStr assignment.id),
                         Cond.eqCol "studentId" (Value.vStr s.userId)])
                      Submission.getField st.submissions
                  else
                    applyWhere (Cond.eqCol "assignmentId" (Value.vStr assignment.id))
                      Submission.getField st.submissions
                match subs.mapM (fun sub =>
                    (getUser st sub.studentId).map (fun u =>
                      ({ submission := sub, studentName := u.name, studentEmail := u.email,
                         grades := applyWhere
                           (Cond.eqCol "submissionId" (Value.vStr sub.id))
                           Grade.getField st.grades } : EnrichedSubmission))) with
                | none => Resp.err 500 "TypeError"
                | some enriched =>
                    Resp.json
                      { assignment := assignment, courseTitle := course.title,
                        submissions := enriched }

/-- `POST /api/enrollments` (lines 258-303): student only; the body is
validated by `enrollmentSchema` (`courseId` must be a uuid); then course
existence, then the duplicate-enrollment check, then insert plus an
Enrollment notification to the student. -/
def postEnrollmentsRoute (st : Store) (sess : Option Session) (courseId : String) :
    Resp Enrollment × Store :=
  match sess with
  | none => (Resp.err 401 "Unauthorized", st)
  | some s =>
      if s.userRole != "student" then (Resp.err 403 "Forbidden", st)
      else if !(isUuid courseId) then (Resp.err 400 "Validation error", st)
      else
        match getCourse st courseId with
        | none => (Resp.err 404 "Course not found", st)
        | some course =>
            if 0 < (enrollmentCheckQuery st courseId s.userId).length then
              (Resp.err 400 "Already enrolled in this course", st)
            else
              let ins := insertEnrollment st s.userId courseId
              let notif := insertNotification ins.2 s.userId "Enrollment"
                ("You\x27ve been enrolled in " ++ course.title) false
              (Resp.json ins.1, notif.2)

structure SubmissionReq where
  assignmentId : String
  content : String
  fileUrl : Option String
  deriving Repr, DecidableEq

/-- `POST /api/submissions` (lines 690-733): student only; requires the
assignment to exist and the student to be enrolled in its course, then
inserts the submission unconditionally — there is no duplicate-submission
check anywhere on this path — and notifies the course's teacher. -/
def postSubmissionsRoute (st : Store) (sess : Option Session) (body : SubmissionReq) :
    Resp Submission × Store :=
  match sess with
  | none => (Resp.err 401 "Unauthorized", st)
  | some s =>
      if s.userRole != "student" then (Resp.err 403 "Forbidden", st)
      else
        match getAssignment st body.assignmentId with
        | none => (Resp.err 404 "Assignment not found", st)
        | some assignment =>
            if (enrollmentCheckQuery st assignment.courseId s.userId).length == 0 then
              (Resp.err 403 "You are not enrolled in this course", st)
            else
              let ins := insertSubmission st body.assignmentId s.userId body.content
                body.fileUrl
              match getCourse ins.2 assignment.courseId with
              | none => (Resp.err 500 "TypeError", ins.2)
              | some course =>
                  let notif := insertNotification ins.2 course.teacherId "Submission"
                    ("New submission for " ++ assignment.title) false
                  (Resp.json ins.1, notif.2)

structure GradeReq where
  submissionId : String
  grade : ℚ
  feedback : Option String
  deriving Repr, DecidableEq

/-- `POST /api/grades` (lines 736-785): teacher only; `gradeSchema` validation
first (before any store access), then submission/assignment lookups, course
ownership, the duplicate-grade check, then insert plus a Grade notification
to the submission's student. -/
def postGradesRoute (st : Store) (sess : Option Session) (body : GradeReq) :
    Resp Grade × Store :=
  match sess with
  | none => (Resp.err 401 "Unauthorized", st)
  | some s =>
      if s.userRole != "teacher" then (Resp.err 403 "Forbidden", st)
      else if !(isUuid body.submissionId && gradeValueOk body.grade) then
        (Resp.err 400 "Validation error", st)
      else
        match getSubmission st body.submissionId with
        | none => (Resp.err 404 "Submission not found", st)
        | some submission =>
            match getAssignment st submission.assignmentId with
            | none => (Resp.err 404 "Assignment not found", st)
            | some assignment =>
                let owns := match getCourse st assignment.courseId with
                  | none => false
                  | some course => course.teacherId == s.userId
                if !owns then
                  (Resp.err 403 "You don\x27t have permission to grade this submission", st)
                else
                  let existing := applyLimit 1
                    (applyWhere (Cond.eqCol "submissionId" (Value.vStr body.submissionId))
                      Grade.getField st.grades)
                  if 0 < existing.length then
                    (Resp.err 400 "This submission has already been graded", st)
                  else
                    let ins := insertGrade st body.submissionId body.grade.num body.feedback
                    let notif := insertNotification ins.2 submission.studentId "Grade"
                      ("Your assignment \x22" ++ assignment.title ++ "\x22 has been graded: " ++
                        toString ins.1.grade ++ "/100") false
                    (Resp.json ins.1, notif.2)

/-- `GET /api/notifications` (lines 1049-1057). -/
def getNotificationsRoute (st : Store) (sess : Option Session) :
    Resp (List Notification) :=
  match sess with
  | none => Resp.err 401 "Unauthorized"
  | some s => Resp.json (getNotificationsByUser st s.userId)

/-- `PATCH /api/notifications/:id/read` (lines 1059-1081): looks the
notification up (`limit(1)`), 404 when absent, 403 when owned by another
user, otherwise `storage.markNotificationAsRead`. -/
def patchNotificationReadRoute (st : Store) (sess : Option Session) (nid : String) :
    Resp Unit × Store :=
  match sess with
  | none => (Resp.err 401 "Unauthorized", st)
  | some s =>
      let rows := applyLimit 1
        (applyWhere (Cond.eqCol "id" (Value.vStr nid)) Notification.getField
          st.notifications)
      match rows.head? with
      | none => (Resp.err 404 "Notification not found", st)
      | some n =>
          if n.userId != s.userId then
            (Resp.err 403 "You don\x27t have permission to modify this notification", st)
          else
            (Resp.json (), markNotificationAsRead st nid)

end LMS

namespace LMS

/-! ### The full `MockQuery` pipeline (src/server/db.ts, lines 184-320)

For the frame claim about read queries the pipeline is embedded generically:
a query executes against the store as explicit state and returns its result
rows together with the (possibly updated) store.  The base table is
deep-copied into generic JSON rows at construction (`JSON.parse(JSON.stringify(...))`),
`where` filters with `parseCondition`, and execution applies joins (which read
the current store tables), ordering, `limit` (under JavaScript truthiness, so
a limit of 0 is ignored) and field selection. -/

inductive TableName where
  | users | courses | enrollments | assignments | submissions
  | grades | discussions | materials | notifications
  deriving Repr, DecidableEq

abbrev JsonRow := List (String × Value)

def rowGet (r : JsonRow) (f : String) : Option Value :=
  (r.find? (fun p => p.1 == f)).map (fun p => p.2)

def User.toRow (u : User) : JsonRow :=
  [("id", Value.vStr u.id), ("name", Value.vStr u.name), ("email", Value.vStr u.email),
   ("password", Value.vStr u.password), ("role", Value.vStr u.role),
   ("createdAt", Value.vStr u.createdAt)]

def Course.toRow (c : Course) : JsonRow :=
  [("id", Value.vStr c.id), ("title", Value.vStr c.title),
   ("description", Value.vStr c.description), ("duration", Value.vStr c.duration),
   ("teacherId", Value.vStr c.teacherId), ("createdAt", Value.vStr c.createdAt)]

def Enrollment.toRow (e : Enrollment) : JsonRow :=
  [("id", Value.vStr e.id), ("studentId", Value.vStr e.studentId),
   ("courseId", Value.vStr e.courseId), ("enrolledAt", Value.vStr e.enrolledAt),
   ("createdAt", Value.vStr e.createdAt)]

def Assignment.toRow (a : Assignment) : JsonRow :=
  [("id", Value.vStr a.id), ("courseId", Value.vStr a.courseId),
   ("title", Value.vStr a.title), ("instructions", Value.vStr a.instructions),
   ("dueDate", Value.vStr a.dueDate), ("createdAt", Value.vStr a.createdAt)]

def Submission.toRow (s : Submission) : JsonRow :=
  [("id", Value.vStr s.id), ("assignmentId", Value.vStr s.assignmentId),
   ("studentId", Value.vStr s.studentId), ("content", Value.vStr s.content)] ++
  (match s.fileUrl with
   | some f => [("fileUrl", Value.vStr f)]
   | none => []) ++
  [("submittedAt", Value.vStr s.submittedAt), ("createdAt", Value.vStr s.createdAt)]

def Grade.toRow (g : Grade) : JsonRow :=
  [("id", Value.vStr g.id), ("submissionId", Value.vStr g.submissionId),
   ("grade", Value.vInt g.grade)] ++
  (match g.feedback with
   | some f => [("feedback", Value.vStr f)]
   | none => []) ++
  [("gradedAt", Value.vStr g.gradedAt), ("createdAt", Value.vStr g.createdAt)]

def Discussion.toRow (d : Discussion) : JsonRow :=
  [("id", Value.vStr d.id), ("courseId", Value.vStr d.courseId),
   ("userId", Value.vStr d.userId), ("content", Value.vStr d.content)] ++
  (match d.parentId with
   | some p => [("parentId", Value.vStr p)]
   | none => []) ++
  [("createdAt", Value.vStr d.createdAt)]

def Material.toRow (m : Material) : JsonRow :=
  [("id", Value.vStr m.id), ("courseId", Value.vStr m.courseId),
   ("title", Value.vStr m.title), ("fileUrl", Value.vStr m.fileUrl),
   ("fileType", Value.vStr m.fileType), ("uploadedAt", Value.vStr m.uploadedAt),
   ("createdAt", Value.vStr m.createdAt)]

def Notification.toRow (n : Notification) : JsonRow :=
  [("id", Value.vStr n.id), ("userId", Value.vStr n.userId),
   ("type", Value.vStr n.ntype), ("content", Value.vStr n.content),
   ("isRead", Value.vBool n.isRead), ("createdAt", Value.vStr n.createdAt)]

/-- `mockData[tableName]`, as the deep-copied JSON rows a `MockQuery` works on. -/
def tableRows (st : Store) : TableName → List JsonRow
  | TableName.users => st.users.map User.toRow
  | TableName.courses => st.courses.map Course.toRow
  | TableName.enrollments => st.enrollments.map Enrollment.toRow
  | TableName.assignments => st.assignments.map Assignment.toRow
  | TableName.submissions => st.submissions.map Submission.toRow
  | TableName.grades => st.grades.map Grade.toRow
  | TableName.discussions => st.discussions.map Discussion.toRow
  | TableName.materials => st.materials.map Material.toRow
  | TableName.notifications => st.notifications.map Notification.toRow

/-- A result row: the base fields plus the sub-objects attached by joins. -/
structure QRow where
  fields : JsonRow
  attached : List (String × JsonRow)
  deriving Repr, DecidableEq

/-- A JavaScript-truthy string field (`if (leftRecord.teacherId)`). -/
def truthyStr (v : Option Value) : Option String :=
  match v with
  | some (Value.vStr s) => if s = "" then none else some s
  | _ => none

/-- `performJoin` (src/server/db.ts, lines 113-181): attaches one sub-object
per left record, chosen by the right table and the foreign-key field present
on the left record; a missing right record leaves the row unchanged. -/
def performJoin (st : Store) (rightTableName : TableName) (leftData : List QRow) :
    List QRow :=
  leftData.map (fun left =>
    match rightTableName with
    | TableName.users =>
        match truthyStr (rowGet left.fields "teacherId") with
        | some tid =>
            match st.users.find? (fun r => r.id == tid) with
            | some u =>
                { left with attached := left.attached ++ [("teacher", [("name", Value.vStr u.name)])] }
            | none => left
        | none =>
            match truthyStr (rowGet left.fields "studentId") with
            | some sid =>
                match st.users.find? (fun r => r.id == sid) with
                | some u =>
                    { left with attached := left.attached ++
                        [("student", [("name", Value.vStr u.name), ("email", Value.vStr u.email)])] }
                | none => left
            | none =>
                match truthyStr (rowGet left.fields "userId") with
                | some uid =>
                    match st.users.find? (fun r => r.id == uid) with
                    | some u =>
                        { left with attached := left.attached ++ [("user", [("name", Value.vStr u.name)])] }
                    | none => left
                | none => left
    | TableName.courses =>
        match truthyStr (rowGet left.fields "courseId") with
        | some cid =>
            match st.courses.find? (fun r => r.id == cid) with
            | some c => { left with attached := left.attached ++ [("course", c.toRow)] }
            | none => left
        | none => left
    | TableName.assignments =>
        match truthyStr (rowGet left.fields "assignmentId") with
        | some aid =>
            match st.assignments.find? (fun r => r.id == aid) with
            | some a => { left with attached := left.attached ++ [("assignment", a.toRow)] }
            | none => left
        | none => left
    | TableName.submissions =>
        match truthyStr (rowGet left.fields "submissionId") with
        | some sid =>
            match st.submissions.find? (fun r => r.id == sid) with
            | some s => { left with attached := left.attached ++ [("submission", s.toRow)] }
            | none => left
        | none => left
    | _ => left)

/-- JavaScript `<` on the values `getNestedValue` produces: defined on two
strings or two numbers; every other comparison (including anything involving
`undefined`) is `false`. -/
def vLt : Option Value → Option Value → Bool
  | some (Value.vStr a), some (Value.vStr b) => a < b
  | some (Value.vInt a), some (Value.vInt b) => a < b
  | some (Value.vBool a), some (Value.vBool b) => !a && b
  | _, _ => false

structure OrderBySpec where
  field : String
  ascDir : Bool
  deriving Repr, DecidableEq

/-- The comparator of `MockQuery.then`'s `result.sort`: walk the orderBy
fields, returning on the first strict difference. -/
def orderCmp (specs : List OrderBySpec) (a b : QRow) : Ordering :=
  match specs with
  | [] => Ordering.eq
  | spec :: rest =>
      let aVal := rowGet a.fields spec.field
      let bVal := rowGet b.fields spec.field
      if vLt aVal bVal then (if spec.ascDir then Ordering.lt else Ordering.gt)
      else if vLt bVal aVal then (if spec.ascDir then Ordering.gt else Ordering.lt)
      else orderCmp rest a b

/-- One selected output field: either `key: column` or a nested object
`key: { subKey: column, ... }`; `getNestedValue` resolves a column against the
base fields of the (joined) record. -/
inductive SelEntry where
  | direct (key : String) (col : String)
  | nested (key : String) (sub : List (String × String))
  deriving Repr

def applySelection (sel : List SelEntry) (rows : List QRow) : List QRow :=
  rows.map (fun q =>
    { fields := sel.filterMap (fun entry =>
        match entry with
        | SelEntry.direct key col => (rowGet q.fields col).map (fun v => (key, v))
        | SelEntry.nested _ _ => none),
      attached := sel.filterMap (fun entry =>
        match entry with
        | SelEntry.direct _ _ => none
        | SelEntry.nested key sub =>
            some (key, sub.filterMap (fun p => (rowGet q.fields p.2).map (fun v => (p.1, v))))) })

structure QuerySpec where
  table : TableName
  wheres : List Cond
  joins : List TableName
  orderBys : List OrderBySpec
  limitCount : Nat
  selection : Option (List SelEntry)

/-- `db.select(fields).from(table).where(...)....then(...)` as a transformer of
the explicit store state: constructor deep-copies the base table, each `where`
filters, execution joins (reading the current store), orders, limits
(`if (this.limitCount)` — 0 is falsy and ignored) and selects.  No step of
this read path writes any table. -/
def runMockQuery (q : QuerySpec) (st : Store) : List QRow × Store :=
  let base := (tableRows st q.table).map (fun r => QRow.mk r [])
  let filtered := q.wheres.foldl
    (fun acc c => acc.filter (fun r => parseCondition c (rowGet r.fields))) base
  let joined := q.joins.foldl (fun acc t => performJoin st t acc) filtered
  let ordered :=
    if q.orderBys.isEmpty then joined
    else joined.mergeSort (fun a b => orderCmp q.orderBys a b ≠ Ordering.gt)
  let limited := if q.limitCount = 0 then ordered else ordered.take q.limitCount
  let selected :=
    match q.selection with
    | none => limited
    | some sel => applySelection sel limited
  (selected, st)

end LMS

namespace LMS

/-! ### Helper lemmas -/

/-- A `limit(1)` slice is nonempty exactly when the unsliced rows are. -/
lemma applyLimit_one_length_pos (l : List α) :
    0 < (applyLimit 1 l).length ↔ 0 < l.length := by
  simp [applyLimit, List.length_take]

/-- The paired course/student equality condition evaluated on an enrollment
record checks both conjuncts. -/
lemma parse_enroll_pair_iff (e : Enrollment) (cid uid : String) :
    parseCondition
      (Cond.andCond
        [Cond.eqCol "courseId" (Value.vStr cid),
         Cond.eqCol "studentId" (Value.vStr uid)]) e.getField = true ↔
      (e.courseId = cid ∧ e.studentId = uid) := by
  simp [parseCondition, parseCondListAll, Enrollment.getField]

/-- The enrollment-existence guard query is nonempty exactly when a matching
enrollment row is in the store. -/
lemma enrollQuery_pos_iff (st : Store) (cid uid : String) :
    0 < (enrollmentCheckQuery st cid uid).length ↔
      ∃ e ∈ st.enrollments, e.courseId = cid ∧ e.studentId = uid := by
  unfold enrollmentCheckQuery
  rw [applyLimit_one_length_pos]
  unfold applyWhere
  rw [List.length_pos_iff_exists_mem]
  constructor
  · rintro ⟨e, he⟩
    rw [List.mem_filter] at he
    exact ⟨e, he.1, (parse_enroll_pair_iff e cid uid).mp he.2⟩
  · rintro ⟨e, he, hcs⟩
    exact ⟨e, List.mem_filter.mpr ⟨he, (parse_enroll_pair_iff e cid uid).mpr hcs⟩⟩

/-- Claim C3: the enrollment check used by the authorization guard evaluates
to true if and only if an Enrollment record exists whose studentId equals the
given user id and whose courseId equals the given course id; a record matching
only one of the two fields does not satisfy the check. -/
theorem c3_enrollment_check_iff_record_exists (st : Store) (userId courseId : String) :
    0 < (enrollmentCheckQuery st courseId userId).length ↔
      ∃ e ∈ st.enrollments, e.studentId = userId ∧ e.courseId = courseId := by
  rw [enrollQuery_pos_iff]
  constructor
  · rintro ⟨e, he, h1, h2⟩
    exact ⟨e, he, h2, h1⟩
  · rintro ⟨e, he, h1, h2⟩
    exact ⟨e, he, h2, h1⟩

end LMS

namespace LMS

/-- Claim C1: an authenticated teacher who does not own an existing course is
Forbidden (HTTP 403) by every Course-scoped operation on it — course detail,
enrollment listing, assignment creation, material creation and assignment
detail — and an authenticated student with no enrollment row for the course
is Forbidden by the Course-scoped reads (course detail and assignment
detail). -/
theorem c1_non_owner_non_enrolled_forbidden
    (st : Store) (course : Course) (cid tuid suid aid : String) (a : Assignment)
    (abody : AssignmentReq) (mbody : MaterialReq)
    (hc : getCourse st cid = some course)
    (hto : course.teacherId ≠ tuid)
    (ha : getAssignment st aid = some a)
    (hac : a.courseId = cid)
    (hab : abody.courseId = cid)
    (hmb : mbody.courseId = cid)
    (hs : ∀ e ∈ st.enrollments, ¬(e.studentId = suid ∧ e.courseId = cid)) :
    getCourseRoute st (some ⟨tuid, "teacher"⟩) cid =
        Resp.err 403 "You don\x27t have access to this course" ∧
    getCourseEnrollmentsRoute st (some ⟨tuid, "teacher"⟩) cid =
        Resp.err 403 "You don\x27t have permission to view these enrollments" ∧
    postAssignmentsRoute st (some ⟨tuid, "teacher"⟩) abody =
        (Resp.err 403 "You don\x27t have permission to create assignments for this course",
         st) ∧
    postMaterialsRoute st (some ⟨tuid, "teacher"⟩) mbody =
        (Resp.err 403 "You don\x27t have permission to add materials to this course", st) ∧
    getAssignmentRoute st (some ⟨tuid, "teacher"⟩) aid =
        Resp.err 403 "You don\x27t have access to this assignment" ∧
    getCourseRoute st (some ⟨suid, "student"⟩) cid =
        Resp.err 403 "You don\x27t have access to this course" ∧
    getAssignmentRoute st (some ⟨suid, "student"⟩) aid =
        Resp.err 403 "You don\x27t have access to this assignment" := by
  have hnotenr : ¬(0 < (enrollmentCheckQuery st cid suid).length) := by
    rw [enrollQuery_pos_iff]
    rintro ⟨e, he, h1, h2⟩
    exact hs e he ⟨h2, h1⟩
  have hc2 : getCourse st a.courseId = some course := by
    rw [hac]; exact hc
  refine ⟨?_, ?_, ?_, ?_, ?_, ?_, ?_⟩
  · simp [getCourseRoute, hc, hto]
  · simp [getCourseEnrollmentsRoute, hc, hto]
  · simp [postAssignmentsRoute, hab, hc, hto]
  · simp [postMaterialsRoute, hmb, hc, hto]
  · simp [getAssignmentRoute, ha, hc2, hto]
  · simp [getCourseRoute, hc, hnotenr]
  · simp [getAssignmentRoute, ha, hc2, hc, hac, hnotenr]

end LMS

namespace LMS

/-! ### Concrete stores used by witnesses and counterexamples -/

def courseW : Course :=
  { id := "c1", title := "Intro", description := "Basics", duration := "5 weeks",
    teacherId := "t1", createdAt := "T0" }

def assignW : Assignment :=
  { id := "a1", courseId := "c1", title := "HW1", instructions := "Solve",
    dueDate := "T9", createdAt := "T0" }

/-- A store with an owner teacher `t1`, an unrelated teacher `t2`, a
non-enrolled student `s1`, an enrolled student `s2` with one submission, one
course and one assignment. -/
def stW : Store :=
  { users :=
      [{ id := "t1", name := "Teach One", email := "t1@example.com", password := "pw",
         role := "teacher", createdAt := "T0" },
       { id := "t2", name := "Teach Two", email := "t2@example.com", password := "pw",
         role := "teacher", createdAt := "T0" },
       { id := "s1", name := "Stu One", email := "s1@example.com", password := "pw",
         role := "student", createdAt := "T0" },
       { id := "s2", name := "Stu Two", email := "s2@example.com", password := "pw",
         role := "student", createdAt := "T0" }],
    courses := [courseW],
    enrollments :=
      [{ id := "e1", studentId := "s2", courseId := "c1", enrolledAt := "T0",
         createdAt := "T0" }],
    assignments := [assignW],
    submissions :=
      [{ id := "sub1", assignmentId := "a1", studentId := "s2", content := "my answer",
         fileUrl := none, submittedAt := "T0", createdAt := "T0" }],
    grades := [], discussions := [], materials := [], notifications := [],
    nextId := 0, now := "T1" }

/-- Witness for C1: the hypotheses hold of the concrete store `stW` with the
unrelated teacher `t2` and the non-enrolled student `s1`, and the theorem
applies. -/
theorem c1_witness :
    (getCourse stW "c1" = some courseW ∧ courseW.teacherId ≠ "t2" ∧
      getAssignment stW "a1" = some assignW ∧ assignW.courseId = "c1" ∧
      ∀ e ∈ stW.enrollments, ¬(e.studentId = "s1" ∧ e.courseId = "c1")) ∧
    getCourseRoute stW (some ⟨"t2", "teacher"⟩) "c1" =
      Resp.err 403 "You don\x27t have access to this course" :=
  ⟨⟨by decide, by decide, by decide, by decide, by decide⟩,
    (c1_non_owner_non_enrolled_forbidden stW courseW "c1" "t2" "s1" "a1" assignW
      { courseId := "c1", title := "HW2", instructions := "Work", dueDate := "T9" }
      { courseId := "c1", title := "M1", fileUrl := "url", fileType := "pdf" }
      (by decide) (by decide) (by decide) (by decide) rfl rfl (by decide)).1⟩

end LMS

namespace LMS

/-! ### More helper lemmas -/

lemma parse_sub_pair_iff (s : Submission) (aidv uidv : String) :
    parseCondition
      (Cond.andCond
        [Cond.eqCol "assignmentId" (Value.vStr aidv),
         Cond.eqCol "studentId" (Value.vStr uidv)]) s.getField = true ↔
      (s.assignmentId = aidv ∧ s.studentId = uidv) := by
  simp [parseCondition, parseCondListAll, Submission.getField]

lemma parse_sub_assign_iff (s : Submission) (aidv : String) :
    parseCondition (Cond.eqCol "assignmentId" (Value.vStr aidv)) s.getField = true ↔
      s.assignmentId = aidv := by
  simp [parseCondition, Submission.getField]

lemma parse_grade_sub_iff (g : Grade) (sidv : String) :
    parseCondition (Cond.eqCol "submissionId" (Value.vStr sidv)) g.getField = true ↔
      g.submissionId = sidv := by
  simp [parseCondition, Grade.getField]

lemma parse_notif_user_iff (n : Notification) (uidv : String) :
    parseCondition (Cond.eqCol "userId" (Value.vStr uidv)) n.getField = true ↔
      n.userId = uidv := by
  simp [parseCondition, Notification.getField]

lemma parse_notif_id_iff (n : Notification) (idv : String) :
    parseCondition (Cond.eqCol "id" (Value.vStr idv)) n.getField = true ↔
      n.id = idv := by
  simp [parseCondition, Notification.getField]

/-- Inverting a successful `Option`-valued traversal: every input has an
image in the output and every output element is the image of an input. -/
lemma mapM_option_mem {α β : Type} (f : α → Option β) :
    ∀ (l : List α) (r : List β), l.mapM f = some r →
      (∀ a ∈ l, ∃ b ∈ r, f a = some b) ∧ (∀ b ∈ r, ∃ a ∈ l, f a = some b) := by
  intro l
  induction l with
  | nil =>
      intro r h
      simp only [List.mapM_nil, pure, Option.some.injEq] at h
      subst h
      simp
  | cons a as ih =>
      intro r h
      rw [List.mapM_cons] at h
      cases hfa : f a with
      | none => rw [hfa] at h; simp at h
      | some b =>
          rw [hfa] at h
          cases hmm : as.mapM f with
          | none => rw [hmm] at h; simp at h
          | some bs =>
              rw [hmm] at h
              simp only [Option.bind_eq_bind, Option.some_bind, pure,
                Option.some.injEq] at h
              subst h
              obtain ⟨fw, bw⟩ := ih bs hmm
              constructor
              · intro x hx
                rcases List.mem_cons.mp hx with hx | hx
                · exact ⟨b, List.mem_cons_self b bs, hx ▸ hfa⟩
                · obtain ⟨y, hy, hfy⟩ := fw x hx
                  exact ⟨y, List.mem_cons_of_mem b hy, hfy⟩
              · intro y hy
                rcases List.mem_cons.mp hy with hy | hy
                · exact ⟨a, List.mem_cons_self a as, hy ▸ hfa⟩
                · obtain ⟨x, hx, hfx⟩ := bw y hy
                  exact ⟨x, List.mem_cons_of_mem a hx, hfx⟩

end LMS

namespace LMS

/-- Claim C5: for an assignment detail request, a student response can only
ever contain that student's own submissions; a student with no enrollment for
the assignment's course is Forbidden and receives no submission data; and the
teacher-owner's response lists every submission of the assignment, each
enriched with the student's identity and its grades. -/
theorem c5_assignment_detail_submission_scoping (st : Store) (aid : String) :
    (∀ suid p, getAssignmentRoute st (some ⟨suid, "student"⟩) aid = Resp.json p →
        ∀ x ∈ p.submissions, x.submission.studentId = suid) ∧
    (∀ suid a course, getAssignment st aid = some a →
        getCourse st a.courseId = some course →
        (∀ e ∈ st.enrollments, ¬(e.studentId = suid ∧ e.courseId = a.courseId)) →
        getAssignmentRoute st (some ⟨suid, "student"⟩) aid =
          Resp.err 403 "You don\x27t have access to this assignment") ∧
    (∀ tuid a course p, getAssignment st aid = some a →
        getCourse st a.courseId = some course → course.teacherId = tuid →
        getAssignmentRoute st (some ⟨tuid, "teacher"⟩) aid = Resp.json p →
        (∀ s ∈ st.submissions, s.assignmentId = a.id →
            ∃ x ∈ p.submissions, x.submission = s) ∧
        (∀ x ∈ p.submissions,
            x.submission ∈ st.submissions ∧ x.submission.assignmentId = a.id ∧
            (∃ u, getUser st x.submission.studentId = some u ∧
              x.studentName = u.name ∧ x.studentEmail = u.email) ∧
            x.grades = applyWhere (Cond.eqCol "submissionId" (Value.vStr x.submission.id))
              Grade.getField st.grades)) := by
  refine ⟨?_, ?_, ?_⟩
  · -- (a) a student's 200 payload only ever contains their own submissions
    intro suid p h
    simp only [getAssignmentRoute] at h
    split at h
    next => exact Resp.noConfusion h
    next a hA =>
      split at h
      next => exact Resp.noConfusion h
      next course hC =>
        split at h
        next => exact Resp.noConfusion h
        next hguard =>
          split at h
          next => exact Resp.noConfusion h
          next enr hm =>
            cases h
            intro x hx
            have hsl : (("student" : String) == "teacher") = false := by decide
            have hss2 : (("student" : String) == "student") = true := by decide
            simp only [hsl, hss2, Bool.false_and, Bool.not_false, Bool.true_and,
              Bool.and_true] at hguard hm
            have hd : decide (0 < (enrollmentCheckQuery st a.courseId suid).length) = true := by
              by_contra hcon
              rw [Bool.not_eq_true] at hcon
              simp [hcon] at hguard
            rw [if_pos hd] at hm
            obtain ⟨s, hsmem, hfs⟩ := (mapM_option_mem _ _ _ hm).2 x hx
            simp only [applyWhere, List.mem_filter] at hsmem
            obtain ⟨-, hcond⟩ := hsmem
            obtain ⟨hsa, hss⟩ := (parse_sub_pair_iff _ _ _).mp hcond
            rw [Option.map_eq_some'] at hfs
            obtain ⟨u, -, rfl⟩ := hfs
            exact hss
  · -- (b) a non-enrolled student is Forbidden
    intro suid a course hA hC hs
    have hnotenr : ¬(0 < (enrollmentCheckQuery st a.courseId suid).length) := by
      rw [enrollQuery_pos_iff]
      rintro ⟨e, he, h1, h2⟩
      exact hs e he ⟨h2, h1⟩
    simp [getAssignmentRoute, hA, hC, hnotenr]
  · -- (c) the teacher-owner sees every submission of the assignment
    intro tuid a course p hA hC hown h
    simp only [getAssignmentRoute, hA, hC] at h
    have htl : (("teacher" : String) == "teacher") = true := by decide
    have hts : (("teacher" : String) == "student") = false := by decide
    have ht2 : (course.teacherId == tuid) = true := by simp [hown]
    simp only [htl, hts, ht2, Bool.true_and, Bool.false_and, Bool.not_true,
      Bool.and_false, Bool.not_false] at h
    rw [if_neg (by simp)] at h
    rw [if_neg (by simp)] at h
    split at h
    next => exact Resp.noConfusion h
    next enr hm =>
      cases h
      constructor
      · intro s hsmem hsa
        have hfilter : s ∈ applyWhere (Cond.eqCol "assignmentId" (Value.vStr a.id))
            Submission.getField st.submissions := by
          rw [applyWhere, List.mem_filter]
          exact ⟨hsmem, (parse_sub_assign_iff s a.id).mpr hsa⟩
        obtain ⟨x, hxmem, hfx⟩ := (mapM_option_mem _ _ _ hm).1 s hfilter
        rw [Option.map_eq_some'] at hfx
        obtain ⟨u, hu, rfl⟩ := hfx
        exact ⟨_, hxmem, rfl⟩
      · intro x hx
        obtain ⟨s, hsmem, hfs⟩ := (mapM_option_mem _ _ _ hm).2 x hx
        simp only [applyWhere, List.mem_filter] at hsmem
        obtain ⟨hmem, hcond⟩ := hsmem
        have hsa := (parse_sub_assign_iff s a.id).mp hcond
        rw [Option.map_eq_some'] at hfs
        obtain ⟨u, hu, rfl⟩ := hfs
        exact ⟨hmem, hsa, ⟨u, hu, rfl, rfl⟩, rfl⟩

end LMS

namespace LMS

/-- Witness for C5: on the concrete store `stW`, the non-enrolled student `s1`
is Forbidden on the assignment detail of `a1`. -/
theorem c5_witness :
    (getAssignment stW "a1" = some assignW ∧ getCourse stW assignW.courseId = some courseW ∧
      ∀ e ∈ stW.enrollments, ¬(e.studentId = "s1" ∧ e.courseId = assignW.courseId)) ∧
    getAssignmentRoute stW (some ⟨"s1", "student"⟩) "a1" =
      Resp.err 403 "You don\x27t have access to this assignment" :=
  ⟨⟨by decide, by decide, by decide⟩,
    (c5_assignment_detail_submission_scoping stW "a1").2.1 "s1" assignW courseW
      (by decide) (by decide) (by decide)⟩

/-- A store in which student `s1` is enrolled in course `c1` which has
assignment `a1` and no submissions yet. -/
def stE : Store :=
  { users :=
      [{ id := "t1", name := "Teach One", email := "t1@example.com", password := "pw",
         role := "teacher", createdAt := "T0" },
       { id := "s1", name := "Stu One", email := "s1@example.com", password := "pw",
         role := "student", createdAt := "T0" }],
    courses := [courseW],
    enrollments :=
      [{ id := "e1", studentId := "s1", courseId := "c1", enrolledAt := "T0",
         createdAt := "T0" }],
    assignments := [assignW],
    submissions := [], grades := [], discussions := [], materials := [],
    notifications := [], nextId := 0, now := "T1" }

/-- The row stored by the first duplicate submission on `stE`. -/
def subRow1 : Submission :=
  { id := "gid0", assignmentId := "a1", studentId := "s1", content := "ans1",
    fileUrl := none, submittedAt := "T1", createdAt := "T1" }

/-- The row stored by the second (duplicate) submission on `stE`. -/
def subRow2 : Submission :=
  { id := "gid2", assignmentId := "a1", studentId := "s1", content := "ans2",
    fileUrl := none, submittedAt := "T1", createdAt := "T1" }

/-- Claim C2 (violated by the code): `POST /api/submissions` performs no
duplicate-submission check and `db.insert` enforces no unique constraint, so
an enrolled student submitting twice for the same assignment gets two
successful 200 responses and two stored Submission rows — not a `Conflict` —
even though `shared/schema.ts` declares `(assignmentId, studentId)` unique. -/
theorem c2_duplicate_submission_accepted :
    (let r1 := postSubmissionsRoute stE (some ⟨"s1", "student"⟩)
        { assignmentId := "a1", content := "ans1", fileUrl := none };
     let r2 := postSubmissionsRoute r1.2 (some ⟨"s1", "student"⟩)
        { assignmentId := "a1", content := "ans2", fileUrl := none };
     r1.1 = Resp.json subRow1 ∧ r2.1 = Resp.json subRow2 ∧
     (r2.2.submissions.countP
        (fun s => s.assignmentId == "a1" && s.studentId == "s1")) = 2) := by
  decide

/-- Counterexample for C4: on `stW` there is no course `"c9"`, yet the
enrollment listing, assignment creation and material creation respond with
their Forbidden (403) message — the same outcome as an ownership failure —
rather than a distinct NotFound (404). -/
theorem c4_counterexample_missing_course_forbidden :
    getCourseEnrollmentsRoute stW (some ⟨"t1", "teacher"⟩) "c9" =
      Resp.err 403 "You don\x27t have permission to view these enrollments" ∧
    (postAssignmentsRoute stW (some ⟨"t1", "teacher"⟩)
        { courseId := "c9", title := "HW", instructions := "W", dueDate := "T9" }).1 =
      Resp.err 403 "You don\x27t have permission to create assignments for this course" ∧
    (postMaterialsRoute stW (some ⟨"t1", "teacher"⟩)
        { courseId := "c9", title := "M", fileUrl := "u", fileType := "pdf" }).1 =
      Resp.err 403 "You don\x27t have permission to add materials to this course" ∧
    (403 : Nat) ≠ 404 := by
  decide

/-- Claim C4 as amended: in the enrollment listing, assignment creation and
material creation handlers a course lookup that returns no record is folded
into the ownership check and yields the same Forbidden response as a
non-owned course; no distinct NotFound outcome is produced and nothing is
written. -/
theorem c4_amended_missing_course_is_forbidden
    (st : Store) (tuid cid : String) (abody : AssignmentReq) (mbody : MaterialReq)
    (hc : getCourse st cid = none)
    (hab : abody.courseId = cid) (hmb : mbody.courseId = cid) :
    getCourseEnrollmentsRoute st (some ⟨tuid, "teacher"⟩) cid =
      Resp.err 403 "You don\x27t have permission to view these enrollments" ∧
    postAssignmentsRoute st (some ⟨tuid, "teacher"⟩) abody =
      (Resp.err 403 "You don\x27t have permission to create assignments for this course",
       st) ∧
    postMaterialsRoute st (some ⟨tuid, "teacher"⟩) mbody =
      (Resp.err 403 "You don\x27t have permission to add materials to this course", st) := by
  refine ⟨?_, ?_, ?_⟩
  · simp [getCourseEnrollmentsRoute, hc]
  · simp [postAssignmentsRoute, hab, hc]
  · simp [postMaterialsRoute, hmb, hc]

/-- Witness for the amended C4 at the concrete store `stW` and the absent
course id `"c9"`. -/
theorem c4_witness :
    getCourse stW "c9" = none ∧
    getCourseEnrollmentsRoute stW (some ⟨"t2", "teacher"⟩) "c9" =
      Resp.err 403 "You don\x27t have permission to view these enrollments" :=
  ⟨by decide,
    (c4_amended_missing_course_is_forbidden stW "t2" "c9"
      { courseId := "c9", title := "HW", instructions := "W", dueDate := "T9" }
      { courseId := "c9", title := "M", fileUrl := "u", fileType := "pdf" }
      (by decide) rfl rfl).1⟩

/-- Claim C6: a notification created while no live connection is registered
for the user (or while the registered connection is not OPEN) is still
persisted with `isRead = false`, appears in a subsequent listing for that
user, no push message is sent, and the dropped push leaves the store exactly
as the persisting insert left it. -/
theorem c6_notification_durable_without_connection
    (st : Store) (cl : Clients) (u nt ct : String)
    (h : clientsGet cl u = none ∨ ∃ c, clientsGet cl u = some c ∧ c.readyState ≠ wsOPEN) :
    (notifyUser st cl u nt ct).1 ∈ (notifyUser st cl u nt ct).2.1.notifications ∧
    (notifyUser st cl u nt ct).1.isRead = false ∧
    (notifyUser st cl u nt ct).1 ∈ getNotificationsByUser (notifyUser st cl u nt ct).2.1 u ∧
    (notifyUser st cl u nt ct).2.2 = [] ∧
    (notifyUser st cl u nt ct).2.1 = (insertNotification st u nt ct false).2 := by
  refine ⟨?_, rfl, ?_, ?_, rfl⟩
  · simp [notifyUser, insertNotification]
  · simp only [notifyUser, getNotificationsByUser, sortByCreatedAtDesc]
    rw [List.mem_mergeSort]
    simp [applyWhere, List.mem_filter, insertNotification, parseCondition,
      Notification.getField]
  · rcases h with hnone | ⟨c, hcl, hne⟩
    · simp [notifyUser, broadcastNotification, hnone]
    · simp [notifyUser, broadcastNotification, hcl, hne]

/-- Witness for C6: a registered but non-OPEN connection for `s1`; the push is
dropped and the notification is still listed. -/
theorem c6_witness :
    (clientsGet [("s1", ⟨3⟩)] "s1" = some ⟨3⟩ ∧ (3 : Nat) ≠ wsOPEN) ∧
    (notifyUser stW [("s1", ⟨3⟩)] "s1" "Grade" "graded").2.2 = [] ∧
    (notifyUser stW [("s1", ⟨3⟩)] "s1" "Grade" "graded").1 ∈
      getNotificationsByUser (notifyUser stW [("s1", ⟨3⟩)] "s1" "Grade" "graded").2.1 "s1" :=
  ⟨⟨by decide, by decide⟩,
    (c6_notification_durable_without_connection stW [("s1", ⟨3⟩)] "s1" "Grade" "graded"
      (Or.inr ⟨⟨3⟩, by decide, by decide⟩)).2.2.2.1,
    (c6_notification_durable_without_connection stW [("s1", ⟨3⟩)] "s1" "Grade" "graded"
      (Or.inr ⟨⟨3⟩, by decide, by decide⟩)).2.2.1⟩

end LMS

namespace LMS

/-- Counterexample for C7: course `"c1"` of `stW` exists, but its id is a
mock-`generateId`-format string, not a UUID, so `enrollmentSchema` rejects
both enrollment attempts with `Validation error`: no row is created and the
second call does not return the duplicate-enrollment (Conflict) outcome. -/
theorem c7_counterexample_nonuuid_course :
    (let r1 := postEnrollmentsRoute stW (some ⟨"s1", "student"⟩) "c1";
     let r2 := postEnrollmentsRoute r1.2 (some ⟨"s1", "student"⟩) "c1";
     r1.1 = Resp.err 400 "Validation error" ∧
     r2.1 = Resp.err 400 "Validation error" ∧
     (r2.2.enrollments.countP
        (fun e => e.courseId == "c1" && e.studentId == "s1")) = 0) := by
  decide

/-- `POST /api/enrollments` hits the duplicate-enrollment branch when a
matching enrollment row exists. -/
lemma postEnroll_conflict (st : Store) (suid cid : String) (course : Course)
    (hu : isUuid cid = true) (hc : getCourse st cid = some course)
    (hex : ∃ e ∈ st.enrollments, e.courseId = cid ∧ e.studentId = suid) :
    postEnrollmentsRoute st (some ⟨suid, "student"⟩) cid =
      (Resp.err 400 "Already enrolled in this course", st) := by
  have hchk : 0 < (enrollmentCheckQuery st cid suid).length :=
    (enrollQuery_pos_iff st cid suid).mpr hex
  simp [postEnrollmentsRoute, hu, hc, hchk]

/-- `POST /api/enrollments` inserts the enrollment and its notification when
the course exists and no matching enrollment row is present. -/
lemma postEnroll_success (st : Store) (suid cid : String) (course : Course)
    (hu : isUuid cid = true) (hc : getCourse st cid = some course)
    (h0 : ∀ e ∈ st.enrollments, ¬(e.courseId = cid ∧ e.studentId = suid)) :
    postEnrollmentsRoute st (some ⟨suid, "student"⟩) cid =
      (Resp.json (insertEnrollment st suid cid).1,
       (insertNotification (insertEnrollment st suid cid).2 suid "Enrollment"
         ("You\x27ve been enrolled in " ++ course.title) false).2) := by
  have hchk : ¬ 0 < (enrollmentCheckQuery st cid suid).length := by
    rw [enrollQuery_pos_iff]
    rintro ⟨e, he, h1, h2⟩
    exact h0 e he ⟨h1, h2⟩
  simp [postEnrollmentsRoute, hu, hc, hchk]

/-- Claim C7 as amended: for a course whose id passes the UUID validation,
enrolling twice leaves exactly one Enrollment row for the pair and the second
call returns the duplicate-enrollment Conflict outcome — an outcome distinct
from `Validation error` and from any 500 failure — leaving the store
untouched.  (For a mock-generated non-UUID course id both calls are rejected
as `Validation error` instead; see the counterexample.) -/
theorem c7_amended_duplicate_enrollment_conflict
    (st : Store) (suid cid : String) (course : Course)
    (hu : isUuid cid = true)
    (hc : getCourse st cid = some course)
    (h0 : ∀ e ∈ st.enrollments, ¬(e.courseId = cid ∧ e.studentId = suid)) :
    (let r1 := postEnrollmentsRoute st (some ⟨suid, "student"⟩) cid;
     let r2 := postEnrollmentsRoute r1.2 (some ⟨suid, "student"⟩) cid;
     r1.1 = Resp.json (insertEnrollment st suid cid).1 ∧
     r2.1 = Resp.err 400 "Already enrolled in this course" ∧
     r2.2 = r1.2 ∧
     (r2.2.enrollments.countP
        (fun e => e.courseId == cid && e.studentId == suid)) = 1 ∧
     (Resp.err 400 "Already enrolled in this course" : Resp Enrollment) ≠
       Resp.err 400 "Validation error" ∧
     ∀ msg, (Resp.err 400 "Already enrolled in this course" : Resp Enrollment) ≠
       Resp.err 500 msg) := by
  intro r1 r2
  have h1 := postEnroll_success st suid cid course hu hc h0
  have hc1 : getCourse r1.2 cid = some course := by
    show getCourse (postEnrollmentsRoute st (some ⟨suid, "student"⟩) cid).2 cid = some course
    rw [h1]
    exact hc
  have hex1 : ∃ e ∈ r1.2.enrollments, e.courseId = cid ∧ e.studentId = suid := by
    show ∃ e ∈ (postEnrollmentsRoute st (some ⟨suid, "student"⟩) cid).2.enrollments, _
    rw [h1]
    refine ⟨(insertEnrollment st suid cid).1, ?_, rfl, rfl⟩
    simp [insertEnrollment, insertNotification]
  have h2 := postEnroll_conflict r1.2 suid cid course hu hc1 hex1
  refine ⟨?_, ?_, ?_, ?_, ?_, ?_⟩
  · show (postEnrollmentsRoute st (some ⟨suid, "student"⟩) cid).1 = _
    rw [h1]
  · show (postEnrollmentsRoute r1.2 (some ⟨suid, "student"⟩) cid).1 = _
    rw [h2]
  · show (postEnrollmentsRoute r1.2 (some ⟨suid, "student"⟩) cid).2 = r1.2
    rw [h2]
  · show ((postEnrollmentsRoute r1.2 (some ⟨suid, "student"⟩) cid).2.enrollments.countP _) = 1
    rw [h2]
    show (r1.2.enrollments.countP _) = 1
    have hr1 : r1.2.enrollments =
        st.enrollments ++ [(insertEnrollment st suid cid).1] := by
      show (postEnrollmentsRoute st (some ⟨suid, "student"⟩) cid).2.enrollments = _
      rw [h1]
      simp [insertEnrollment, insertNotification]
    rw [hr1, List.countP_append]
    have hz : st.enrollments.countP
        (fun e => e.courseId == cid && e.studentId == suid) = 0 := by
      rw [List.countP_eq_zero]
      intro e he
      simp only [Bool.and_eq_true, beq_iff_eq]
      rintro ⟨hh1, hh2⟩
      exact h0 e he ⟨hh1, hh2⟩
    rw [hz]
    simp [insertEnrollment, List.countP_cons]
  · decide
  · intro msg hcon
    simp at hcon

end LMS

namespace LMS

def courseU : Course :=
  { id := "11111111-1111-4111-8111-111111111111", title := "Intro U",
    description := "Basics", duration := "4 weeks", teacherId := "t1",
    createdAt := "T0" }

/-- A store whose course id is a UUID, as the enrollment validation demands. -/
def stU : Store :=
  { users :=
      [{ id := "t1", name := "Teach One", email := "t1@example.com", password := "pw",
         role := "teacher", createdAt := "T0" },
       { id := "s1", name := "Stu One", email := "s1@example.com", password := "pw",
         role := "student", createdAt := "T0" }],
    courses := [courseU],
    enrollments := [], assignments := [], submissions := [], grades := [],
    discussions := [], materials := [], notifications := [],
    nextId := 0, now := "T1" }

/-- Witness for the amended C7 on the concrete UUID-id course store `stU`. -/
theorem c7_witness :
    (isUuid courseU.id = true ∧ getCourse stU courseU.id = some courseU ∧
      ∀ e ∈ stU.enrollments, ¬(e.courseId = courseU.id ∧ e.studentId = "s1")) ∧
    (postEnrollmentsRoute
        (postEnrollmentsRoute stU (some ⟨"s1", "student"⟩) courseU.id).2
        (some ⟨"s1", "student"⟩) courseU.id).1 =
      Resp.err 400 "Already enrolled in this course" :=
  ⟨⟨by decide, by decide, by decide⟩,
    (c7_amended_duplicate_enrollment_conflict stU "s1" courseU.id courseU
      (by decide) (by decide) (by decide)).2.1⟩

def gradeRowW : Grade :=
  { id := "g1", submissionId := "sub1", grade := 90, feedback := none,
    gradedAt := "T0", createdAt := "T0" }

/-- `stW` with an existing grade for submission `sub1`. -/
def stG : Store := { stW with grades := [gradeRowW] }

/-- Counterexample for C8: submission `"sub1"` of `stG` already carries a
grade, yet a second, well-formed grade attempt by the owning teacher is
rejected as `Validation error` — not the duplicate-grade Conflict outcome —
because the mock-generated submission id is not a UUID. -/
theorem c8_counterexample_nonuuid_submission :
    postGradesRoute stG (some ⟨"t1", "teacher"⟩)
        { submissionId := "sub1", grade := 87, feedback := none } =
      (Resp.err 400 "Validation error", stG) ∧
    (Resp.err 400 "Validation error" : Resp Grade) ≠
      Resp.err 400 "This submission has already been graded" := by
  decide

end LMS

namespace LMS

/-- Claim C8 as amended: grade validation (`z.number().int().min(0).max(100)`)
runs before any store access, so an out-of-range or non-integer grade value is
rejected as `Validation error` with the store untouched; for a submission
whose id passes the UUID validation, a duplicate grade attempt by the owning
teacher is rejected with the duplicate-grade Conflict outcome and no insert;
and every request preserves "at most one Grade row per submission".  (For a
mock-generated non-UUID submission id the attempt is instead rejected as
`Validation error`; see the counterexample.) -/
theorem c8_amended_grade_uniqueness_and_validation (st : Store) (tuid : String) :
    (∀ body : GradeReq, gradeValueOk body.grade = false →
        postGradesRoute st (some ⟨tuid, "teacher"⟩) body =
          (Resp.err 400 "Validation error", st)) ∧
    (∀ (body : GradeReq) (submission : Submission) (assignment : Assignment)
        (course : Course),
        isUuid body.submissionId = true → gradeValueOk body.grade = true →
        getSubmission st body.submissionId = some submission →
        getAssignment st submission.assignmentId = some assignment →
        getCourse st assignment.courseId = some course →
        course.teacherId = tuid →
        (∃ g ∈ st.grades, g.submissionId = body.submissionId) →
        postGradesRoute st (some ⟨tuid, "teacher"⟩) body =
          (Resp.err 400 "This submission has already been graded", st)) ∧
    (∀ (sess : Option Session) (body : GradeReq) (sub : String),
        st.grades.countP (fun g => g.submissionId == sub) ≤ 1 →
        ((postGradesRoute st sess body).2.grades.countP
          (fun g => g.submissionId == sub)) ≤ 1) := by
  refine ⟨?_, ?_, ?_⟩
  · intro body hbad
    simp [postGradesRoute, hbad]
  · intro body submission assignment course hu hg hsub hass hcrs hown hex
    have hpos : 0 < (applyLimit 1
        (applyWhere (Cond.eqCol "submissionId" (Value.vStr body.submissionId))
          Grade.getField st.grades)).length := by
      rw [applyLimit_one_length_pos]
      rw [applyWhere, List.length_pos_iff_exists_mem]
      obtain ⟨g, hgmem, hgs⟩ := hex
      exact ⟨g, List.mem_filter.mpr ⟨hgmem, (parse_grade_sub_iff g _).mpr hgs⟩⟩
    simp [postGradesRoute, hu, hg, hsub, hass, hcrs, hown, hpos]
  · intro sess body sub hle
    cases sess with
    | none => simpa [postGradesRoute] using hle
    | some s =>
      simp only [postGradesRoute]
      split
      next => simpa using hle
      next =>
        split
        next => simpa using hle
        next =>
          split
          next => simpa using hle
          next submission hsub =>
            split
            next => simpa using hle
            next assignment hass =>
              split
              next => simpa using hle
              next =>
                split
                next => simpa using hle
                next hnodup =>
                  -- the insert branch
                  have hempty : ∀ g ∈ st.grades,
                      ¬(g.submissionId = body.submissionId) := by
                    intro g hgmem hgs
                    apply hnodup
                    rw [applyLimit_one_length_pos]
                    rw [applyWhere, List.length_pos_iff_exists_mem]
                    exact ⟨g, List.mem_filter.mpr
                      ⟨hgmem, (parse_grade_sub_iff g _).mpr hgs⟩⟩
                  simp only [insertGrade, insertNotification, List.countP_append]
                  by_cases hse : body.submissionId = sub
                  · have hz : st.grades.countP (fun g => g.submissionId == sub) = 0 := by
                      rw [List.countP_eq_zero]
                      intro g hgmem
                      simp only [beq_iff_eq]
                      intro hgs
                      exact hempty g hgmem (hgs.trans hse.symm)
                    simp [hz, List.countP_cons, hse]
                  · have ho : List.countP (fun g : Grade => g.submissionId == sub)
                        [({ id := st.freshId, submissionId := body.submissionId,
                            grade := body.grade.num, feedback := body.feedback,
                            gradedAt := st.now, createdAt := st.now } : Grade)] = 0 := by
                      simp [List.countP_cons, hse]
                    simp only [ho, Nat.add_zero]
                    exact hle

end LMS

namespace LMS

def subU : Submission :=
  { id := "22222222-2222-4222-8222-222222222222", assignmentId := "a1",
    studentId := "s1", content := "ans", fileUrl := none, submittedAt := "T0",
    createdAt := "T0" }

def gradeU : Grade :=
  { id := "g1", submissionId := "22222222-2222-4222-8222-222222222222",
    grade := 90, feedback := none, gradedAt := "T0", createdAt := "T0" }

/-- A store whose submission id is a UUID and already carries a grade. -/
def stGU : Store :=
  { users :=
      [{ id := "t1", name := "Teach One", email := "t1@example.com", password := "pw",
         role := "teacher", createdAt := "T0" },
       { id := "s1", name := "Stu One", email := "s1@example.com", password := "pw",
         role := "student", createdAt := "T0" }],
    courses := [courseW],
    enrollments := [],
    assignments := [assignW],
    submissions := [subU],
    grades := [gradeU],
    discussions := [], materials := [], notifications := [],
    nextId := 0, now := "T1" }

/-- Witness for the amended C8 on the concrete UUID-id submission store
`stGU`: the second grade attempt hits the duplicate-grade branch. -/
theorem c8_witness :
    (isUuid subU.id = true ∧
      gradeValueOk (87 : ℚ) = true ∧
      getSubmission stGU subU.id = some subU ∧
      getAssignment stGU subU.assignmentId = some assignW ∧
      getCourse stGU assignW.courseId = some courseW ∧
      courseW.teacherId = "t1" ∧
      (∃ g ∈ stGU.grades, g.submissionId = subU.id)) ∧
    postGradesRoute stGU (some ⟨"t1", "teacher"⟩)
        { submissionId := subU.id, grade := 87, feedback := none } =
      (Resp.err 400 "This submission has already been graded", stGU) :=
  ⟨⟨by decide, by decide, by decide, by decide, by decide, by decide,
    ⟨gradeU, by decide, by decide⟩⟩,
    (c8_amended_grade_uniqueness_and_validation stGU "t1").2.1
      { submissionId := subU.id, grade := 87, feedback := none }
      subU assignW courseW (by decide) (by decide) (by decide) (by decide)
      (by decide) (by decide) ⟨gradeU, by decide, by decide⟩⟩

/-- Claim C9: executing any select query — any table, any combination of
`where` conditions, joins, ordering, limit and field selection — returns the
store component unchanged: the read path of `MockQuery` writes no table
(it deep-copies the base table at construction and only reads the store
during joins). -/
theorem c9_select_query_leaves_store_unchanged (q : QuerySpec) (st : Store) :
    (runMockQuery q st).2 = st := rfl

/-- The expected frame effect of marking a notification read: exactly the
records with the addressed id get `isRead := true`, nothing else changes. -/
def setReadById (l : List Notification) (nid : String) : List Notification :=
  l.map (fun m => if m.id = nid then { m with isRead := true } else m)

/-- `db.update(notifications).set({isRead: true}).where(eq(notifications.id, id))`
patches exactly the records whose `id` field equals the addressed id. -/
lemma markRead_map_form (st : Store) (nid : String) :
    markNotificationAsRead st nid =
      { st with notifications := setReadById st.notifications nid } := by
  unfold markNotificationAsRead setReadById
  congr 1
  apply List.map_congr_left
  intro m _
  by_cases h : m.id = nid <;> simp [parseCondition, Notification.getField, h]

/-- Claim C10: marking a notification as read is owner-gated and modifies
only the addressed record's `isRead` field: the looked-up notification's
owner gets a success response and a store in which exactly the records with
the addressed id have `isRead` set to `true` and every other field, record
and table is unchanged; any other authenticated user gets Forbidden and an
untouched store. -/
theorem c10_mark_notification_read_frame
    (st : Store) (uid role nid : String) (n : Notification)
    (hfind : (applyLimit 1 (applyWhere (Cond.eqCol "id" (Value.vStr nid))
        Notification.getField st.notifications)).head? = some n) :
    (n.userId = uid →
      patchNotificationReadRoute st (some ⟨uid, role⟩) nid =
        (Resp.json (),
         { st with notifications := setReadById st.notifications nid })) ∧
    (n.userId ≠ uid →
      patchNotificationReadRoute st (some ⟨uid, role⟩) nid =
        (Resp.err 403 "You don\x27t have permission to modify this notification", st)) := by
  constructor
  · intro hown
    simp [patchNotificationReadRoute, hfind, hown, markRead_map_form]
  · intro hnot
    simp [patchNotificationReadRoute, hfind, hnot]

def notifRowA : Notification :=
  { id := "n1", userId := "s1", ntype := "Welcome", content := "hello",
    isRead := false, createdAt := "T0" }

def notifRowB : Notification :=
  { id := "n2", userId := "s2", ntype := "Welcome", content := "hello",
    isRead := false, createdAt := "T0" }

/-- `stW` with two notifications owned by different students. -/
def stN : Store := { stW with notifications := [notifRowA, notifRowB] }

/-- Witness for C10 at the concrete store `stN`: the owner marks `n1` read —
only `n1.isRead` changes — and the other user is Forbidden. -/
theorem c10_witness :
    ((applyLimit 1 (applyWhere (Cond.eqCol "id" (Value.vStr "n1"))
        Notification.getField stN.notifications)).head? = some notifRowA ∧
      notifRowA.userId = "s1" ∧ notifRowA.userId ≠ "s2") ∧
    patchNotificationReadRoute stN (some ⟨"s1", "student"⟩) "n1" =
      (Resp.json (),
       { stN with notifications := setReadById stN.notifications "n1" }) ∧
    patchNotificationReadRoute stN (some ⟨"s2", "student"⟩) "n1" =
      (Resp.err 403 "You don\x27t have permission to modify this notification", stN) :=
  ⟨⟨by decide, by decide, by decide⟩,
    (c10_mark_notification_read_frame stN "s1" "student" "n1" notifRowA
      (by decide)).1 (by decide),
    (c10_mark_notification_read_frame stN "s2" "student" "n1" notifRowA
      (by decide)).2 (by decide)⟩

end LMS
